import Mathlib

/-!
Shallow embedding of the FigureTechnologies invoice smart contract
(src/msg.rs, src/state.rs, src/contract.rs, src/instantiate.rs), together
with theorems settling the specification claims about it.

Modelling conventions:
* `Uint128` amounts are `Nat` (no arithmetic is performed on them, only
  construction, comparison with 1, and equality, so overflow is irrelevant);
* `Addr` and denominations are `String`;
* the host's key-value storage is explicit state passed through each
  entry point: the `config` singleton is an `Option State` and the invoice
  bucket is an association list keyed by the invoice id;
* fallible entry points return `Except ContractError Response` paired with
  the (possibly mutated) storage, mirroring Rust where the storage object
  is mutated in place and the error is the returned value.  In every path
  of this contract an error is returned before any mutation, so the paired
  state on error always equals the input state, which the theorems exploit.
-/

namespace InvoiceContract

/-- Embedding of `cosmwasm_std::Coin`: a denomination together with a `Uint128` amount. -/
structure Coin where
  denom : String
  amount : Nat
deriving DecidableEq, Repr

/-- Embedding of `cosmwasm_std::MessageInfo`: caller identity and attached funds. -/
structure MessageInfo where
  sender : String
  funds : List Coin
deriving DecidableEq, Repr

/-- Embedding of `cosmwasm_std::coins(amount, denom)`: a one-element fund list. -/
def coins (amount : Nat) (denom : String) : List Coin :=
  [⟨denom, amount⟩]

/-- The `State` struct of src/state.rs (the Configuration singleton). -/
structure State where
  admin : String
  recipient : String
  denom : String
  business_name : String
deriving DecidableEq, Repr

/-- The `Invoice` struct of src/state.rs. -/
structure Invoice where
  id : String
  amount : Nat
  description : Option String
deriving DecidableEq, Repr

/-- Embedding of `cosmwasm_std::StdError`, restricted to the variants this contract can
produce: the bucket's not-found error and generic errors. -/
inductive StdError where
  | notFound (kind : String)
  | genericErr (msg : String)
deriving DecidableEq, Repr

/-- The contract's error enum (src/error.rs is not part of the sources, but
every variant and its payload shape is visible at its use sites in
src/contract.rs, src/instantiate.rs and src/msg.rs). -/
inductive ContractError where
  | Std (error : StdError)
  | Unauthorized (error : String)
  | SentFundsUnsupported
  | SentFundsInvoiceMismatch
  | LoadInvoiceFailed (error : StdError)
  | InvalidFields (fields : List String)
  | UnsupportedMarkerType
deriving DecidableEq, Repr

/-- Embedding of `cosmwasm_std::BankMsg::Send` (the only message variant the contract
emits): a settlement instruction moving `amount` to `to_address`. -/
structure BankSend where
  to_address : String
  amount : List Coin
deriving DecidableEq, Repr

/-- Embedding of `cosmwasm_std::Response`, restricted to what the contract uses:
string attributes and bank-send messages. -/
structure Response where
  attributes : List (String × String)
  messages : List BankSend
deriving DecidableEq, Repr

/-- Embedding of `Response::new()`. -/
def Response.new : Response := ⟨[], []⟩

/-- Embedding of `Response::add_attributes`. -/
def Response.add_attributes (r : Response) (attrs : List (String × String)) : Response :=
  { r with attributes := r.attributes ++ attrs }

/-- Embedding of `Response::add_message` for a bank send. -/
def Response.add_message (r : Response) (m : BankSend) : Response :=
  { r with messages := r.messages ++ [m] }

/-- Embedding of `provwasm_std::MarkerType`, as matched in src/instantiate.rs. -/
inductive MarkerType where
  | coin
  | restricted
deriving DecidableEq, Repr

/-! ### Storage

The invoice bucket (`cosmwasm_storage::Bucket` keyed by `id.as_bytes()`)
is an association list from id strings to invoices; the config singleton
is an `Option State`. -/

/-- The whole durable storage the contract touches. -/
structure ContractState where
  config : Option State
  invoices : List (String × Invoice)
  version : Option (String × String)
deriving DecidableEq, Repr

/-- Embedding of `Bucket::may_load`: the value at `key`, if present. -/
def bucket_may_load (store : List (String × Invoice)) (key : String) : Option Invoice :=
  (store.find? (fun p => p.1 = key)).map (fun p => p.2)

/-- Embedding of `Bucket::load`: like `may_load` but failing with the std not-found
error naming the stored type. -/
def bucket_load (store : List (String × Invoice)) (key : String) :
    Except StdError Invoice :=
  match bucket_may_load store key with
  | some invoice => .ok invoice
  | none => .error (.notFound "invoice::state::Invoice")

/-- Embedding of `Bucket::save`: bind `key`, replacing any previous binding. -/
def bucket_save (store : List (String × Invoice)) (key : String) (invoice : Invoice) :
    List (String × Invoice) :=
  (key, invoice) :: store.filter (fun p => ¬ p.1 = key)

/-- Embedding of `Bucket::remove`: drop any binding of `key`. -/
def bucket_remove (store : List (String × Invoice)) (key : String) :
    List (String × Invoice) :=
  store.filter (fun p => ¬ p.1 = key)

/-! ### Messages and validation (src/msg.rs) -/

/-- Embedding of `InstantiateMsg` of src/msg.rs. -/
structure InstantiateMsg where
  denom : String
  recipient : String
  business_name : String
deriving DecidableEq, Repr

/-- Embedding of `ExecuteMsg` of src/msg.rs. -/
inductive ExecuteMsg where
  | AddInvoice (id : String) (amount : Nat) (description : Option String)
  | PayInvoice (id : String)
  | CancelInvoice (id : String)
deriving DecidableEq, Repr

/-- Embedding of `QueryMsg` of src/msg.rs. -/
inductive QueryMsg where
  | GetInvoice (id : String)
  | GetContractInfo
  | GetVersionInfo
deriving DecidableEq, Repr

/-- ASCII hexadecimal digit, as accepted by the uuid crate's parser. -/
def isHexDigit (c : Char) : Bool :=
  (decide ('0' ≤ c) && decide (c ≤ '9')) ||
  (decide ('a' ≤ c) && decide (c ≤ 'f')) ||
  (decide ('A' ≤ c) && decide (c ≤ 'F'))

/-- The hyphenated UUID shape `xxxxxxxx-xxxx-xxxx-xxxx-xxxxxxxxxxxx`:
36 characters, hyphens exactly at indices 8, 13, 18 and 23, hex digits
everywhere else. -/
def hyphenatedUuid (cs : List Char) : Bool :=
  cs.length = 36 &&
  cs.enum.all (fun p =>
    if p.1 = 8 || p.1 = 13 || p.1 = 18 || p.1 = 23 then p.2 = '-'
    else isHexDigit p.2)

/-- Embedding of `uuid::Uuid::parse_str(s).is_ok()`: the uuid crate accepts the simple
32-hex-digit form, the 36-character hyphenated form, and the hyphenated
form carrying the `urn:uuid:` prefix. -/
def uuid_parse_ok (s : String) : Bool :=
  let cs := s.data
  if cs.length = 32 then cs.all isHexDigit
  else if cs.length = 36 then hyphenatedUuid cs
  else if cs.length = 45 then
    decide (cs.take 9 = "urn:uuid:".data) && hyphenatedUuid (cs.drop 9)
  else false

/-- Embedding of `ExecuteMsg::validate` (impl Validate for ExecuteMsg, src/msg.rs):
collects the names of all invalid fields, in declaration order, and fails
with `InvalidFields` when the collection is non-empty. -/
def ExecuteMsg.validate : ExecuteMsg → Except ContractError Unit
  | .AddInvoice id amount description =>
    let f_id : List String := if uuid_parse_ok id then [] else ["id"]
    let f_amount : List String := if amount < 1 then ["amount"] else []
    let f_description : List String :=
      match description with
      | some d => if d.isEmpty || d.utf8ByteSize > 64 then ["description"] else []
      | none => []
    let invalid_fields := f_id ++ f_amount ++ f_description
    if invalid_fields.isEmpty then .ok () else .error (.InvalidFields invalid_fields)
  | .PayInvoice id =>
    if uuid_parse_ok id then .ok () else .error (.InvalidFields ["id"])
  | .CancelInvoice id =>
    if uuid_parse_ok id then .ok () else .error (.InvalidFields ["id"])

/-- Embedding of `QueryMsg::validate` (src/msg.rs). -/
def QueryMsg.validate : QueryMsg → Except ContractError Unit
  | .GetInvoice id =>
    if uuid_parse_ok id then .ok () else .error (.InvalidFields ["id"])
  | .GetContractInfo => .ok ()
  | .GetVersionInfo => .ok ()

/-- Embedding of `InstantiateMsg::validate` (src/msg.rs). -/
def InstantiateMsg.validate (msg : InstantiateMsg) : Except ContractError Unit :=
  let f_denom : List String := if msg.denom.isEmpty then ["denom"] else []
  let f_business : List String := if msg.business_name.isEmpty then ["business_name"] else []
  let invalid_fields := f_denom ++ f_business
  if invalid_fields.isEmpty then .ok () else .error (.InvalidFields invalid_fields)

/-! ### Execute entry point (src/contract.rs) -/

/-- Embedding of `Action::to_string` via `fmt::Display` (src/contract.rs). -/
inductive Action where
  | Add
  | Cancel
  | Pay

/-- The display string of an action attribute. -/
def Action.toString : Action → String
  | .Add => "add_invoice"
  | .Cancel => "cancel_invoice"
  | .Pay => "pay_invoice"

/-- Embedding of `add_invoice` of src/contract.rs. -/
def add_invoice (cs : ContractState) (info : MessageInfo) (id : String)
    (amount : Nat) (description : Option String) :
    Except ContractError Response × ContractState :=
  match cs.config with
  | none => (.error (.Std (.notFound "invoice::state::State")), cs)
  | some state =>
    if ¬ info.sender = state.admin then
      (.error (.Unauthorized "Only admin can add invoice"), cs)
    else if ¬ info.funds.isEmpty then
      (.error .SentFundsUnsupported, cs)
    else
      let invoice : Invoice := ⟨id, amount, description⟩
      if (bucket_may_load cs.invoices invoice.id).isSome then
        (.error (.InvalidFields ["id"]), cs)
      else
        let response := Response.new.add_attributes [
          ("action", Action.Add.toString),
          ("id", invoice.id),
          ("denom", state.denom),
          ("amount", toString invoice.amount),
          ("recipient", state.recipient)]
        (.ok response, { cs with invoices := bucket_save cs.invoices invoice.id invoice })

/-- Embedding of `cancel_invoice` of src/contract.rs. -/
def cancel_invoice (cs : ContractState) (info : MessageInfo) (id : String) :
    Except ContractError Response × ContractState :=
  match cs.config with
  | none => (.error (.Std (.notFound "invoice::state::State")), cs)
  | some state =>
    if ¬ info.sender = state.admin then
      (.error (.Unauthorized "Only admin can cancel invoice"), cs)
    else if ¬ info.funds.isEmpty then
      (.error .SentFundsUnsupported, cs)
    else
      match bucket_load cs.invoices id with
      | .error e => (.error (.LoadInvoiceFailed e), cs)
      | .ok invoice =>
        let response := Response.new.add_attributes [
          ("action", Action.Cancel.toString),
          ("id", invoice.id),
          ("denom", state.denom),
          ("amount", toString invoice.amount),
          ("recipient", state.recipient)]
        (.ok response, { cs with invoices := bucket_remove cs.invoices invoice.id })

/-- Embedding of `pay_invoice` of src/contract.rs. -/
def pay_invoice (cs : ContractState) (info : MessageInfo) (id : String) :
    Except ContractError Response × ContractState :=
  match cs.config with
  | none => (.error (.Std (.notFound "invoice::state::State")), cs)
  | some state =>
    match bucket_load cs.invoices id with
    | .error e => (.error (.LoadInvoiceFailed e), cs)
    | .ok invoice =>
      let amount := coins invoice.amount state.denom
      if ¬ info.funds = amount then
        (.error .SentFundsInvoiceMismatch, cs)
      else
        let response := (Response.new.add_attributes [
          ("action", Action.Pay.toString),
          ("id", invoice.id),
          ("denom", state.denom),
          ("amount", toString invoice.amount),
          ("sender", info.sender),
          ("recipient", state.recipient)]).add_message
          ⟨state.recipient, amount⟩
        (.ok response, { cs with invoices := bucket_remove cs.invoices invoice.id })

/-- The `execute` entry point of src/contract.rs: validate, then dispatch. -/
def execute (cs : ContractState) (info : MessageInfo) (msg : ExecuteMsg) :
    Except ContractError Response × ContractState :=
  match msg.validate with
  | .error e => (.error e, cs)
  | .ok _ =>
    match msg with
    | .AddInvoice id amount description => add_invoice cs info id amount description
    | .CancelInvoice id => cancel_invoice cs info id
    | .PayInvoice id => pay_invoice cs info id

/-! ### Query entry point (src/contract.rs) -/

/-- The possible successful query payloads (`to_binary` serialization is an
external collaborator; we return the value that would be serialized). -/
inductive QueryAnswer where
  | contractInfo (s : State)
  | versionInfo (v : String × String)
  | invoice (i : Invoice)
deriving DecidableEq, Repr

/-- The `query` entry point of src/contract.rs: validate, then answer.
Query failures are `StdError`s (the `StdResult` return type). -/
def query (cs : ContractState) (msg : QueryMsg) : Except StdError QueryAnswer :=
  match msg.validate with
  | .error (.InvalidFields fields) =>
    .error (.genericErr (String.intercalate ", " fields))
  | .error _ => .error (.genericErr "")
  | .ok _ =>
    match msg with
    | .GetContractInfo =>
      match cs.config with
      | some s => .ok (.contractInfo s)
      | none => .error (.notFound "invoice::state::State")
    | .GetVersionInfo =>
      match cs.version with
      | some v => .ok (.versionInfo v)
      | none => .error (.notFound "cw2::ContractVersion")
    | .GetInvoice id =>
      match bucket_load cs.invoices id with
      | .ok invoice => .ok (.invoice invoice)
      | .error e => .error e

/-! ### Instantiate entry point (src/instantiate.rs) -/

/-- Value of `CARGO_CRATE_NAME` (the crate is `invoice`, per the doc examples in
src/msg.rs). -/
def CRATE_NAME : String := "invoice"

/-- Value of `CARGO_PKG_VERSION` (the manifest is not among the sources; the exact
value is irrelevant to every claim). -/
def PACKAGE_VERSION : String := "1.0.0"

/-- The `instantiate` entry point of src/instantiate.rs.  The host services
it consults are passed as parameters: `markers` is
`ProvenanceQuerier::get_marker_by_denom` (the marker type registered for a
denom, if any) and `addrOk` is whether `deps.api.addr_validate` accepts an
address string.  The `contract_info` attribute of the response carries the
Debug rendering of the saved state, which we model abstractly by carrying
the pieces via `String.intercalate` (its exact shape is decision-irrelevant). -/
def instantiate (markers : String → Option MarkerType) (addrOk : String → Bool)
    (cs : ContractState) (info : MessageInfo) (msg : InstantiateMsg) :
    Except ContractError Response × ContractState :=
  match msg.validate with
  | .error e => (.error e, cs)
  | .ok _ =>
    if ¬ info.funds.isEmpty then
      (.error (.Std (.genericErr "no funds should be sent during instantiate")), cs)
    else if ¬ markers msg.denom = some MarkerType.coin then
      (.error .UnsupportedMarkerType, cs)
    else if ¬ addrOk msg.recipient then
      (.error (.Std (.genericErr "invalid address")), cs)
    else
      let contract_info : State :=
        ⟨info.sender, msg.recipient, msg.denom, msg.business_name⟩
      let cs' : ContractState :=
        { cs with config := some contract_info,
                  version := some (CRATE_NAME, PACKAGE_VERSION) }
      let response := Response.new.add_attributes [
        ("contract_info",
          String.intercalate ", " [contract_info.admin, contract_info.recipient,
            contract_info.denom, contract_info.business_name]),
        ("action", "init")]
      (.ok response, cs')

/-- A well-formed store binds each invoice under its own id.  This is the
reachable-state invariant of the invoice bucket: `add_invoice` always saves
under key `invoice.id` (see `execute_preserves_storeWF` below). -/
def StoreWF (store : List (String × Invoice)) : Prop :=
  ∀ p ∈ store, p.2.id = p.1

/-- Blank out the value of the `sender` attribute, keeping everything else. -/
def maskSender (p : String × String) : String × String :=
  if p.1 = "sender" then (p.1, "") else p

/-! ### Generic helpers -/

instance {ε α : Type _} [DecidableEq ε] [DecidableEq α] : DecidableEq (Except ε α)
  | .error a, .error b =>
    if h : a = b then isTrue (congrArg Except.error h)
    else isFalse (fun hc => h (Except.error.inj hc))
  | .error _, .ok _ => isFalse (fun hc => Except.noConfusion hc)
  | .ok _, .error _ => isFalse (fun hc => Except.noConfusion hc)
  | .ok a, .ok b =>
    if h : a = b then isTrue (congrArg Except.ok h)
    else isFalse (fun hc => h (Except.ok.inj hc))

/-- A validated `AddInvoice` has a syntactically valid UUID id. -/
theorem uuid_ok_of_validate_add {id : String} {amount : Nat} {d : Option String}
    (h : ExecuteMsg.validate (.AddInvoice id amount d) = .ok ()) :
    uuid_parse_ok id = true := by
  cases hu : uuid_parse_ok id with
  | true => rfl
  | false => simp [ExecuteMsg.validate, hu] at h

/-- In a well-formed store, a loaded invoice's `id` field is the key it was
loaded under. -/
theorem may_load_id {store : List (String × Invoice)} {key : String} {inv : Invoice}
    (hwf : StoreWF store) (h : bucket_may_load store key = some inv) :
    inv.id = key := by
  unfold bucket_may_load at h
  cases hf : store.find? (fun p => p.1 = key) with
  | none => rw [hf] at h; simp at h
  | some p =>
    rw [hf] at h
    simp only [Option.map_some'] at h
    cases h
    have hmem : p ∈ store := List.mem_of_find?_eq_some hf
    have hkey : p.1 = key := by
      have := List.find?_some hf
      exact of_decide_eq_true this
    rw [hwf p hmem, hkey]

/-- Removing a key makes it absent. -/
theorem may_load_remove_self (store : List (String × Invoice)) (key : String) :
    bucket_may_load (bucket_remove store key) key = none := by
  unfold bucket_may_load bucket_remove
  rw [Option.map_eq_none', List.find?_eq_none]
  intro p hp
  have := (List.mem_filter.mp hp).2
  simpa using this

/-- Loading the key just saved returns the saved invoice. -/
theorem may_load_save_self (store : List (String × Invoice)) (key : String)
    (inv : Invoice) : bucket_may_load (bucket_save store key inv) key = some inv := by
  simp [bucket_may_load, bucket_save, List.find?_cons]

/-- A successful `Bucket::load` is a successful `may_load`. -/
theorem may_load_of_load_ok {store : List (String × Invoice)} {key : String}
    {inv : Invoice} (h : bucket_load store key = .ok inv) :
    bucket_may_load store key = some inv := by
  unfold bucket_load at h
  cases hm : bucket_may_load store key with
  | some i => rw [hm] at h; cases h; rfl
  | none => rw [hm] at h; cases h

/-- Saving an invoice under its own id preserves store well-formedness. -/
theorem storeWF_bucket_save {store : List (String × Invoice)}
    (hwf : StoreWF store) (inv : Invoice) :
    StoreWF (bucket_save store inv.id inv) := by
  intro p hp
  rcases List.mem_cons.mp hp with h | h
  · rw [h]
  · exact hwf p (List.mem_of_mem_filter h)

/-- Removal preserves store well-formedness. -/
theorem storeWF_bucket_remove {store : List (String × Invoice)}
    (hwf : StoreWF store) (key : String) :
    StoreWF (bucket_remove store key) :=
  fun p hp => hwf p (List.mem_of_mem_filter hp)

/-- Every `execute` call preserves store well-formedness, so `StoreWF` holds
in every state reachable from an empty (or well-formed) store. -/
theorem execute_preserves_storeWF (cs : ContractState) (info : MessageInfo)
    (msg : ExecuteMsg) (hwf : StoreWF cs.invoices) :
    StoreWF (execute cs info msg).2.invoices := by
  unfold execute
  cases hv : msg.validate with
  | error e => exact hwf
  | ok u =>
    cases u
    cases msg with
    | AddInvoice id amount description =>
      unfold add_invoice
      cases cs.config with
      | none => exact hwf
      | some st =>
        dsimp only
        split
        · exact hwf
        · split
          · exact hwf
          · split
            · exact hwf
            · exact storeWF_bucket_save hwf ⟨id, amount, description⟩
    | CancelInvoice id =>
      unfold cancel_invoice
      cases cs.config with
      | none => exact hwf
      | some st =>
        dsimp only
        split
        · exact hwf
        · split
          · exact hwf
          · cases bucket_load cs.invoices id with
            | error e => exact hwf
            | ok inv => exact storeWF_bucket_remove hwf inv.id
    | PayInvoice id =>
      unfold pay_invoice
      cases cs.config with
      | none => exact hwf
      | some st =>
        dsimp only
        cases bucket_load cs.invoices id with
        | error e => exact hwf
        | ok inv =>
          dsimp only
          split
          · exact hwf
          · exact storeWF_bucket_remove hwf inv.id

/-! ### Claim theorems -/

/-- C1: with Configuration present, a syntactically valid UUID id, and an
Invoice stored under that id, `Pay(id)` succeeds iff the attached funds are
exactly `[Coin(Configuration.denom, Invoice.amount)]`; on any other funds
value it returns `SentFundsInvoiceMismatch`, the storage is unchanged and
the Invoice is still present, unchanged. -/
theorem pay_funds_exact_iff
    (cs : ContractState) (info : MessageInfo) (id : String) (st : State) (inv : Invoice)
    (hcfg : cs.config = some st)
    (hid : uuid_parse_ok id = true)
    (hinv : bucket_may_load cs.invoices id = some inv) :
    ((execute cs info (.PayInvoice id)).1.isOk = true ↔
      info.funds = [⟨st.denom, inv.amount⟩])
    ∧ (¬ info.funds = [⟨st.denom, inv.amount⟩] →
        execute cs info (.PayInvoice id) = (.error .SentFundsInvoiceMismatch, cs)
        ∧ bucket_may_load (execute cs info (.PayInvoice id)).2.invoices id = some inv) := by
  have hload : bucket_load cs.invoices id = .ok inv := by
    simp [bucket_load, hinv]
  have hexec : execute cs info (.PayInvoice id) = pay_invoice cs info id := by
    simp [execute, ExecuteMsg.validate, hid]
  by_cases hf : info.funds = [(⟨st.denom, inv.amount⟩ : Coin)]
  · refine ⟨?_, fun hne => absurd hf hne⟩
    rw [hexec]
    simp [pay_invoice, hcfg, hload, coins, hf, Except.isOk, Except.toBool]
  · refine ⟨?_, fun _ => ?_⟩
    · rw [hexec]
      simp [pay_invoice, hcfg, hload, coins, hf, Except.isOk, Except.toBool]
    · rw [hexec]
      refine ⟨?_, ?_⟩
      · simp [pay_invoice, hcfg, hload, coins, hf]
      · simp [pay_invoice, hcfg, hload, coins, hf, hinv]

/-- Witness for C1 at a concrete configuration, invoice and matching funds. -/
theorem pay_funds_exact_iff_witness :
    ((execute ⟨some ⟨"admin", "rcpt", "d", "biz"⟩,
        [("00000000000000000000000000000000",
          ⟨"00000000000000000000000000000000", 100, some "x"⟩)], none⟩
        ⟨"payer", [⟨"d", 100⟩]⟩
        (.PayInvoice "00000000000000000000000000000000")).1.isOk = true) := by
  have h := pay_funds_exact_iff
    ⟨some ⟨"admin", "rcpt", "d", "biz"⟩,
      [("00000000000000000000000000000000",
        ⟨"00000000000000000000000000000000", 100, some "x"⟩)], none⟩
    ⟨"payer", [⟨"d", 100⟩]⟩ "00000000000000000000000000000000"
    ⟨"admin", "rcpt", "d", "biz"⟩ ⟨"00000000000000000000000000000000", 100, some "x"⟩
    rfl (by decide) rfl
  exact h.1.mpr rfl

/-- C2: a successful `Pay(id)` removes the Invoice under `id` and emits
exactly one bank-send of the matched funds to `Configuration.recipient`. -/
theorem pay_success_removes_and_pays
    (cs cs' : ContractState) (info : MessageInfo) (id : String) (st : State) (r : Response)
    (hcfg : cs.config = some st)
    (hwf : StoreWF cs.invoices)
    (h : execute cs info (.PayInvoice id) = (.ok r, cs')) :
    bucket_may_load cs'.invoices id = none
    ∧ r.messages = [⟨st.recipient, info.funds⟩] := by
  cases hid : uuid_parse_ok id with
  | false => simp [execute, ExecuteMsg.validate, hid] at h
  | true =>
    have hexec : execute cs info (.PayInvoice id) = pay_invoice cs info id := by
      simp [execute, ExecuteMsg.validate, hid]
    rw [hexec] at h
    simp only [pay_invoice, hcfg] at h
    cases hload : bucket_load cs.invoices id with
    | error e => rw [hload] at h; simp at h
    | ok inv =>
      rw [hload] at h
      simp only at h
      by_cases hf : info.funds = coins inv.amount st.denom
      · rw [if_neg (not_not_intro hf)] at h
        rw [Prod.mk.injEq] at h
        obtain ⟨hr, hcs⟩ := h
        cases hr
        constructor
        · rw [← hcs]
          have hml := may_load_of_load_ok hload
          have hii : inv.id = id := may_load_id hwf hml
          simpa [hii] using may_load_remove_self cs.invoices id
        · simp [Response.new, Response.add_attributes, Response.add_message, hf]
      · rw [if_pos hf] at h
        simp at h

/-- Witness for C2 at a concrete successful payment. -/
theorem pay_success_removes_and_pays_witness :
    bucket_may_load ((execute ⟨some ⟨"admin", "rcpt", "d", "biz"⟩,
        [("00000000000000000000000000000000",
          ⟨"00000000000000000000000000000000", 100, some "x"⟩)], none⟩
        ⟨"somebody", [⟨"d", 100⟩]⟩
        (.PayInvoice "00000000000000000000000000000000")).2).invoices
        "00000000000000000000000000000000" = none := by
  have h := pay_success_removes_and_pays
    ⟨some ⟨"admin", "rcpt", "d", "biz"⟩,
      [("00000000000000000000000000000000",
        ⟨"00000000000000000000000000000000", 100, some "x"⟩)], none⟩
    ⟨some ⟨"admin", "rcpt", "d", "biz"⟩, [], none⟩
    ⟨"somebody", [⟨"d", 100⟩]⟩ "00000000000000000000000000000000"
    ⟨"admin", "rcpt", "d", "biz"⟩
    ⟨[("action", "pay_invoice"), ("id", "00000000000000000000000000000000"),
      ("denom", "d"), ("amount", "100"), ("sender", "somebody"), ("recipient", "rcpt")],
      [⟨"rcpt", [⟨"d", 100⟩]⟩]⟩
    rfl (by intro p hp; simp at hp; subst hp; rfl) (by decide)
  exact h.1

/-- C5: with Configuration present, a valid UUID id, and no Invoice stored
under it, both `Cancel(id)` (by the admin, without funds) and `Pay(id)`
return `LoadInvoiceFailed` and leave the storage unchanged. -/
theorem missing_invoice_load_failed
    (cs : ContractState) (infoC infoP : MessageInfo) (id : String) (st : State)
    (hcfg : cs.config = some st)
    (hid : uuid_parse_ok id = true)
    (hnone : bucket_may_load cs.invoices id = none)
    (hadmin : infoC.sender = st.admin)
    (hfunds : infoC.funds = []) :
    execute cs infoC (.CancelInvoice id)
      = (.error (.LoadInvoiceFailed (.notFound "invoice::state::Invoice")), cs)
    ∧ execute cs infoP (.PayInvoice id)
      = (.error (.LoadInvoiceFailed (.notFound "invoice::state::Invoice")), cs) := by
  have hload : bucket_load cs.invoices id
      = .error (.notFound "invoice::state::Invoice") := by
    simp [bucket_load, hnone]
  constructor
  · simp [execute, ExecuteMsg.validate, hid, cancel_invoice, hcfg, hload, hadmin, hfunds]
  · simp [execute, ExecuteMsg.validate, hid, pay_invoice, hcfg, hload]

/-- Witness for C5 at a concrete empty invoice store. -/
theorem missing_invoice_load_failed_witness :
    execute ⟨some ⟨"admin", "rcpt", "d", "biz"⟩, [], none⟩ ⟨"admin", []⟩
        (.CancelInvoice "11111111111111111111111111111111")
      = (.error (.LoadInvoiceFailed (.notFound "invoice::state::Invoice")),
         ⟨some ⟨"admin", "rcpt", "d", "biz"⟩, [], none⟩) := by
  have h := missing_invoice_load_failed
    ⟨some ⟨"admin", "rcpt", "d", "biz"⟩, [], none⟩
    ⟨"admin", []⟩ ⟨"other", [⟨"d", 5⟩]⟩ "11111111111111111111111111111111"
    ⟨"admin", "rcpt", "d", "biz"⟩ rfl (by decide) rfl rfl rfl
  exact h.1

/-- C8: an `Add` whose id is not a valid UUID, with `amount = 0` and
description the empty string, fails with `InvalidFields` naming all three
fields in one response, and the storage is untouched. -/
theorem add_invalid_all_three_fields
    (cs : ContractState) (info : MessageInfo) (id : String)
    (hid : uuid_parse_ok id = false) :
    execute cs info (.AddInvoice id 0 (some ""))
      = (.error (.InvalidFields ["id", "amount", "description"]), cs) := by
  simp [execute, ExecuteMsg.validate, hid, String.isEmpty]

/-- Witness for C8 with the empty string as the malformed id. -/
theorem add_invalid_all_three_fields_witness :
    execute ⟨some ⟨"admin", "rcpt", "d", "biz"⟩, [], none⟩ ⟨"admin", []⟩
        (.AddInvoice "" 0 (some ""))
      = (.error (.InvalidFields ["id", "amount", "description"]),
         ⟨some ⟨"admin", "rcpt", "d", "biz"⟩, [], none⟩) :=
  add_invalid_all_three_fields
    ⟨some ⟨"admin", "rcpt", "d", "biz"⟩, [], none⟩ ⟨"admin", []⟩ "" (by decide)

/-- C3: a validated `Add` by the admin with no attached funds and a fresh id
stores the invoice, and `GetInvoice` on that id afterwards returns an
Invoice with exactly the submitted amount and description. -/
theorem add_then_query_roundtrip
    (cs : ContractState) (info : MessageInfo) (id : String) (amount : Nat)
    (description : Option String) (st : State)
    (hcfg : cs.config = some st)
    (hv : ExecuteMsg.validate (.AddInvoice id amount description) = .ok ())
    (hadmin : info.sender = st.admin)
    (hfunds : info.funds = [])
    (hfresh : bucket_may_load cs.invoices id = none) :
    query (execute cs info (.AddInvoice id amount description)).2 (.GetInvoice id)
      = .ok (.invoice ⟨id, amount, description⟩) := by
  have hid := uuid_ok_of_validate_add hv
  have hstate : (execute cs info (.AddInvoice id amount description)).2
      = { cs with invoices := bucket_save cs.invoices id ⟨id, amount, description⟩ } := by
    simp [execute, hv, add_invoice, hcfg, hadmin, hfunds, hfresh]
  rw [hstate]
  have hml := may_load_save_self cs.invoices id ⟨id, amount, description⟩
  simp [query, QueryMsg.validate, hid, bucket_load, hml]

/-- Witness for C3 at a concrete fresh add followed by a query. -/
theorem add_then_query_roundtrip_witness :
    query (execute ⟨some ⟨"admin", "rcpt", "d", "biz"⟩, [], none⟩ ⟨"admin", []⟩
        (.AddInvoice "44444444444444444444444444444444" 100 (some "rent"))).2
      (.GetInvoice "44444444444444444444444444444444")
      = .ok (.invoice ⟨"44444444444444444444444444444444", 100, some "rent"⟩) :=
  add_then_query_roundtrip
    ⟨some ⟨"admin", "rcpt", "d", "biz"⟩, [], none⟩ ⟨"admin", []⟩
    "44444444444444444444444444444444" 100 (some "rent")
    ⟨"admin", "rcpt", "d", "biz"⟩ rfl (by decide) rfl rfl rfl

/-- C4: after a successful `Add`, a second `Add` with the same id (by the
admin, no funds, passing validation, any amount and description) fails with
`InvalidFields ["id"]` and the originally stored Invoice is unchanged. -/
theorem add_duplicate_id_rejected
    (cs cs1 : ContractState) (info1 info2 : MessageInfo) (id : String)
    (a1 a2 : Nat) (d1 d2 : Option String) (st : State) (r1 : Response)
    (hcfg : cs.config = some st)
    (h1 : execute cs info1 (.AddInvoice id a1 d1) = (.ok r1, cs1))
    (hv2 : ExecuteMsg.validate (.AddInvoice id a2 d2) = .ok ())
    (hadmin2 : info2.sender = st.admin)
    (hfunds2 : info2.funds = []) :
    execute cs1 info2 (.AddInvoice id a2 d2) = (.error (.InvalidFields ["id"]), cs1)
    ∧ bucket_may_load cs1.invoices id = some ⟨id, a1, d1⟩ := by
  cases hv1 : ExecuteMsg.validate (.AddInvoice id a1 d1) with
  | error e => simp [execute, hv1] at h1
  | ok u =>
    cases u
    simp only [execute, hv1] at h1
    simp only [add_invoice, hcfg] at h1
    split at h1
    · simp at h1
    · split at h1
      · simp at h1
      · split at h1
        · simp at h1
        · rw [Prod.mk.injEq] at h1
          obtain ⟨_, hcs1⟩ := h1
          have hml1 : bucket_may_load cs1.invoices id = some ⟨id, a1, d1⟩ := by
            rw [← hcs1]
            exact may_load_save_self cs.invoices id ⟨id, a1, d1⟩
          have hcfg1 : cs1.config = some st := by rw [← hcs1]
          refine ⟨?_, hml1⟩
          simp [execute, hv2, add_invoice, hcfg1, hadmin2, hfunds2, hml1]

/-- Witness for C4: the same id added twice from an empty store. -/
theorem add_duplicate_id_rejected_witness :
    execute ⟨some ⟨"admin", "rcpt", "d", "biz"⟩,
        [("55555555555555555555555555555555",
          ⟨"55555555555555555555555555555555", 100, some "x"⟩)], none⟩
      ⟨"admin", []⟩ (.AddInvoice "55555555555555555555555555555555" 200 none)
      = (.error (.InvalidFields ["id"]),
         ⟨some ⟨"admin", "rcpt", "d", "biz"⟩,
          [("55555555555555555555555555555555",
            ⟨"55555555555555555555555555555555", 100, some "x"⟩)], none⟩) := by
  have h := add_duplicate_id_rejected
    ⟨some ⟨"admin", "rcpt", "d", "biz"⟩, [], none⟩
    ⟨some ⟨"admin", "rcpt", "d", "biz"⟩,
      [("55555555555555555555555555555555",
        ⟨"55555555555555555555555555555555", 100, some "x"⟩)], none⟩
    ⟨"admin", []⟩ ⟨"admin", []⟩ "55555555555555555555555555555555"
    100 200 (some "x") none ⟨"admin", "rcpt", "d", "biz"⟩
    ⟨[("action", "add_invoice"), ("id", "55555555555555555555555555555555"),
      ("denom", "d"), ("amount", "100"), ("recipient", "rcpt")], []⟩
    rfl (by decide) (by decide) rfl rfl
  exact h.1

/-- C6 counterexample: an `Add` by a non-admin caller whose `amount` field is
invalid (0) yields `InvalidFields ["amount"]`, not `Unauthorized` — validation
runs before the admin check, so the claim fails as stated. -/
theorem nonadmin_invalid_amount_counterexample :
    (execute ⟨some ⟨"admin", "rcpt", "d", "biz"⟩, [], none⟩ ⟨"eve", []⟩
        (.AddInvoice "22222222222222222222222222222222" 0 none)).1
      = .error (.InvalidFields ["amount"])
    ∧ ¬ (execute ⟨some ⟨"admin", "rcpt", "d", "biz"⟩, [], none⟩ ⟨"eve", []⟩
        (.AddInvoice "22222222222222222222222222222222" 0 none)).1
      = .error (.Unauthorized "Only admin can add invoice") := by
  decide

/-- C6 (amended): for every `Add` or `Cancel` request that passes validation,
a caller different from `Configuration.admin` gets `Unauthorized`, whatever
the other field values are, and the storage is unchanged. -/
theorem nonadmin_add_cancel_unauthorized
    (cs : ContractState) (info : MessageInfo) (id : String) (amount : Nat)
    (description : Option String) (st : State)
    (hcfg : cs.config = some st)
    (hv : ExecuteMsg.validate (.AddInvoice id amount description) = .ok ())
    (hna : ¬ info.sender = st.admin) :
    execute cs info (.AddInvoice id amount description)
      = (.error (.Unauthorized "Only admin can add invoice"), cs)
    ∧ execute cs info (.CancelInvoice id)
      = (.error (.Unauthorized "Only admin can cancel invoice"), cs) := by
  have hid := uuid_ok_of_validate_add hv
  constructor
  · simp [execute, hv, add_invoice, hcfg, hna]
  · simp [execute, ExecuteMsg.validate, hid, cancel_invoice, hcfg, hna]

/-- Witness for the amended C6 at a concrete non-admin caller. -/
theorem nonadmin_add_cancel_unauthorized_witness :
    execute ⟨some ⟨"admin", "rcpt", "d", "biz"⟩, [], none⟩ ⟨"eve", []⟩
        (.AddInvoice "66666666666666666666666666666666" 100 none)
      = (.error (.Unauthorized "Only admin can add invoice"),
         ⟨some ⟨"admin", "rcpt", "d", "biz"⟩, [], none⟩) := by
  have h := nonadmin_add_cancel_unauthorized
    ⟨some ⟨"admin", "rcpt", "d", "biz"⟩, [], none⟩ ⟨"eve", []⟩
    "66666666666666666666666666666666" 100 none
    ⟨"admin", "rcpt", "d", "biz"⟩ rfl (by decide) (by decide)
  exact h.1

/-- C7 counterexample: an `Add` by the admin with funds attached but
`amount = 0` yields `InvalidFields ["amount"]`, not `SentFundsUnsupported` —
validation runs before the funds check, so the claim fails as stated. -/
theorem admin_funds_invalid_amount_counterexample :
    (execute ⟨some ⟨"admin", "rcpt", "d", "biz"⟩, [], none⟩ ⟨"admin", [⟨"d", 5⟩]⟩
        (.AddInvoice "33333333333333333333333333333333" 0 none)).1
      = .error (.InvalidFields ["amount"])
    ∧ ¬ (execute ⟨some ⟨"admin", "rcpt", "d", "biz"⟩, [], none⟩ ⟨"admin", [⟨"d", 5⟩]⟩
        (.AddInvoice "33333333333333333333333333333333" 0 none)).1
      = .error .SentFundsUnsupported := by
  decide

/-- C7 (amended): for every `Add` or `Cancel` request that passes validation,
made by the admin with non-empty attached funds, the result is
`SentFundsUnsupported`, whatever the other field values are, and the storage
is unchanged. -/
theorem admin_funds_attached_unsupported
    (cs : ContractState) (info : MessageInfo) (id : String) (amount : Nat)
    (description : Option String) (st : State)
    (hcfg : cs.config = some st)
    (hv : ExecuteMsg.validate (.AddInvoice id amount description) = .ok ())
    (hadmin : info.sender = st.admin)
    (hfunds : ¬ info.funds = []) :
    execute cs info (.AddInvoice id amount description)
      = (.error .SentFundsUnsupported, cs)
    ∧ execute cs info (.CancelInvoice id)
      = (.error .SentFundsUnsupported, cs) := by
  have hid := uuid_ok_of_validate_add hv
  have hne : info.funds.isEmpty = false := by
    cases hfl : info.funds with
    | nil => exact absurd hfl hfunds
    | cons c t => rfl
  constructor
  · simp [execute, hv, add_invoice, hcfg, hadmin, hne]
  · simp [execute, ExecuteMsg.validate, hid, cancel_invoice, hcfg, hadmin, hne]

/-- Witness for the amended C7 at a concrete funded admin call. -/
theorem admin_funds_attached_unsupported_witness :
    execute ⟨some ⟨"admin", "rcpt", "d", "biz"⟩, [], none⟩ ⟨"admin", [⟨"d", 100⟩]⟩
        (.AddInvoice "77777777777777777777777777777777" 100 none)
      = (.error .SentFundsUnsupported,
         ⟨some ⟨"admin", "rcpt", "d", "biz"⟩, [], none⟩) := by
  have h := admin_funds_attached_unsupported
    ⟨some ⟨"admin", "rcpt", "d", "biz"⟩, [], none⟩ ⟨"admin", [⟨"d", 100⟩]⟩
    "77777777777777777777777777777777" 100 none
    ⟨"admin", "rcpt", "d", "biz"⟩ rfl (by decide) rfl (by decide)
  exact h.1

/-- C9: `Pay` performs no identity check — two callers sending the same
funds against the same store get the same resulting store, the same error
(if any), the same settlement messages, and attribute lists that agree
everywhere except the value of the `sender` attribute, which is exactly the
caller. -/
theorem pay_caller_irrelevant
    (cs : ContractState) (a b : String) (f : List Coin) (id : String) :
    (execute cs ⟨a, f⟩ (.PayInvoice id)).2 = (execute cs ⟨b, f⟩ (.PayInvoice id)).2
    ∧ (∀ e, (execute cs ⟨a, f⟩ (.PayInvoice id)).1 = .error e
        ↔ (execute cs ⟨b, f⟩ (.PayInvoice id)).1 = .error e)
    ∧ (∀ ra rb, (execute cs ⟨a, f⟩ (.PayInvoice id)).1 = .ok ra
        → (execute cs ⟨b, f⟩ (.PayInvoice id)).1 = .ok rb
        → ra.messages = rb.messages
          ∧ ra.attributes.map maskSender = rb.attributes.map maskSender
          ∧ ra.attributes.lookup "sender" = some a
          ∧ rb.attributes.lookup "sender" = some b) := by
  cases hid : uuid_parse_ok id with
  | false =>
    refine ⟨?_, fun e => ?_, fun ra rb hra hrb => ?_⟩ <;>
      simp [execute, ExecuteMsg.validate, hid] at *
  | true =>
    have e1 : execute cs ⟨a, f⟩ (.PayInvoice id) = pay_invoice cs ⟨a, f⟩ id := by
      simp [execute, ExecuteMsg.validate, hid]
    have e2 : execute cs ⟨b, f⟩ (.PayInvoice id) = pay_invoice cs ⟨b, f⟩ id := by
      simp [execute, ExecuteMsg.validate, hid]
    rw [e1, e2]
    unfold pay_invoice
    cases hc : cs.config with
    | none => exact ⟨rfl, fun e => Iff.rfl, fun ra rb hra hrb => by cases hra⟩
    | some st =>
      cases hl : bucket_load cs.invoices id with
      | error e => exact ⟨rfl, fun e => Iff.rfl, fun ra rb hra hrb => by cases hra⟩
      | ok inv =>
        dsimp only
        by_cases hf2 : f = coins inv.amount st.denom
        · rw [if_neg (not_not_intro hf2), if_neg (not_not_intro hf2)]
          refine ⟨rfl, fun e => by simp, fun ra rb hra hrb => ?_⟩
          injection hra with hra'
          injection hrb with hrb'
          subst hra'
          subst hrb'
          exact ⟨rfl, rfl, rfl, rfl⟩
        · rw [if_pos hf2, if_pos hf2]
          exact ⟨rfl, fun e => Iff.rfl, fun ra rb hra hrb => by cases hra⟩

/-- Witness for C9: two different callers paying the same concrete invoice. -/
theorem pay_caller_irrelevant_witness :
    (execute ⟨some ⟨"admin", "rcpt", "d", "biz"⟩,
        [("88888888888888888888888888888888",
          ⟨"88888888888888888888888888888888", 100, none⟩)], none⟩
        ⟨"alice", [⟨"d", 100⟩]⟩ (.PayInvoice "88888888888888888888888888888888")).2
      = (execute ⟨some ⟨"admin", "rcpt", "d", "biz"⟩,
        [("88888888888888888888888888888888",
          ⟨"88888888888888888888888888888888", 100, none⟩)], none⟩
        ⟨"bob", [⟨"d", 100⟩]⟩ (.PayInvoice "88888888888888888888888888888888")).2
    ∧ (⟨[("action", "pay_invoice"), ("id", "88888888888888888888888888888888"),
          ("denom", "d"), ("amount", "100"), ("sender", "alice"), ("recipient", "rcpt")],
        [⟨"rcpt", [⟨"d", 100⟩]⟩]⟩ : Response).messages
      = (⟨[("action", "pay_invoice"), ("id", "88888888888888888888888888888888"),
          ("denom", "d"), ("amount", "100"), ("sender", "bob"), ("recipient", "rcpt")],
        [⟨"rcpt", [⟨"d", 100⟩]⟩]⟩ : Response).messages := by
  have h := pay_caller_irrelevant
    ⟨some ⟨"admin", "rcpt", "d", "biz"⟩,
      [("88888888888888888888888888888888",
        ⟨"88888888888888888888888888888888", 100, none⟩)], none⟩
    "alice" "bob" [⟨"d", 100⟩] "88888888888888888888888888888888"
  refine ⟨h.1, ?_⟩
  exact (h.2.2
    ⟨[("action", "pay_invoice"), ("id", "88888888888888888888888888888888"),
      ("denom", "d"), ("amount", "100"), ("sender", "alice"), ("recipient", "rcpt")],
      [⟨"rcpt", [⟨"d", 100⟩]⟩]⟩
    ⟨[("action", "pay_invoice"), ("id", "88888888888888888888888888888888"),
      ("denom", "d"), ("amount", "100"), ("sender", "bob"), ("recipient", "rcpt")],
      [⟨"rcpt", [⟨"d", 100⟩]⟩]⟩
    (by decide) (by decide)).1

/-- C10: a successful instantiation stores a Configuration whose `admin` is
the caller of the instantiation and whose `recipient`, `denom` and
`business_name` are the corresponding request fields. -/
theorem instantiate_sets_config
    (markers : String → Option MarkerType) (addrOk : String → Bool)
    (cs cs' : ContractState) (info : MessageInfo) (msg : InstantiateMsg) (r : Response)
    (h : instantiate markers addrOk cs info msg = (.ok r, cs')) :
    cs'.config = some ⟨info.sender, msg.recipient, msg.denom, msg.business_name⟩ := by
  unfold instantiate at h
  cases hv : msg.validate with
  | error e => rw [hv] at h; simp at h
  | ok u =>
    cases u
    rw [hv] at h
    dsimp only at h
    split at h
    · simp at h
    · split at h
      · simp at h
      · split at h
        · simp at h
        · rw [Prod.mk.injEq] at h
          obtain ⟨_, hcs⟩ := h
          rw [← hcs]

/-- Witness for C10 at a concrete instantiation with an unrestricted
marker registered for the denom. -/
theorem instantiate_sets_config_witness :
    ((instantiate (fun d => if d = "d" then some MarkerType.coin else none)
        (fun _ => true) ⟨none, [], none⟩ ⟨"creator", []⟩
        ⟨"d", "rcpt", "biz"⟩).2).config
      = some ⟨"creator", "rcpt", "d", "biz"⟩ := by
  have h := instantiate_sets_config
    (fun d => if d = "d" then some MarkerType.coin else none)
    (fun _ => true) ⟨none, [], none⟩
    ((instantiate (fun d => if d = "d" then some MarkerType.coin else none)
        (fun _ => true) ⟨none, [], none⟩ ⟨"creator", []⟩ ⟨"d", "rcpt", "biz"⟩).2)
    ⟨"creator", []⟩ ⟨"d", "rcpt", "biz"⟩
    ⟨[("contract_info", "creator, rcpt, d, biz"), ("action", "init")], []⟩
    (by decide)
  exact h

end InvoiceContract
